import Mathlib

/-!
Shallow embedding of the Function Plotter core (main.py, custom_widgets.py,
constants.py).  Numeric values are modelled as exact rationals (ℚ),
idealizing Python/numpy double-precision floats; text fields are lists of
characters.  The Python `eval` of bound fields and of the function field is
modelled by a tokenizer/recursive-descent parser and an evaluator for the
arithmetic fragment the application is designed for: decimal literals
(with Python 3's leading-zero restriction on integer literals), the
variable `x`, identifiers, unary sign, `+ - * /` and the power operator
obtained from rewriting `^` to `**`.  Scientific-notation literals such as
`1e3` are outside the modelled fragment.
-/

namespace FunctionPlotter

/-- A Python string, as the list of its characters. -/
abbrev Text := List Char

/-- `str.replace("^", "**")`: rewrite every caret to Python's power operator
(main.py lines 189, 215, 228). -/
def replaceCaret : Text → Text
  | [] => []
  | c :: cs => if c = '^' then '*' :: '*' :: replaceCaret cs else c :: replaceCaret cs

/-- ASCII whitespace, as recognised by Python's `str.strip` on the inputs
the widgets can produce. -/
def isSpaceChar (c : Char) : Bool :=
  c == ' ' || c == '\t' || c == '\n' || c == '\r'

/-- Python `str.strip()`: drop leading and trailing whitespace. -/
def stripText (cs : Text) : Text :=
  ((cs.dropWhile isSpaceChar).reverse.dropWhile isSpaceChar).reverse

/-- Decimal digit test. -/
def isDigitChar (c : Char) : Bool :=
  '0' ≤ c && c ≤ '9'

/-- Numeric value of one digit character. -/
def digitVal (c : Char) : ℕ :=
  c.toNat - '0'.toNat

/-- Numeric value of a digit string (most significant first). -/
def digitsVal (ds : Text) : ℕ :=
  ds.foldl (fun acc c => 10 * acc + digitVal c) 0

/-- Python 3 decimal *integer* literals forbid leading zeros unless the
value is zero (`eval("012")` raises `SyntaxError`, `eval("00")` is `0`). -/
def intLiteralOK (ds : Text) : Bool :=
  !ds.isEmpty && (ds.head? != some '0' || ds.all (fun c => c == '0'))

/-- Strip one optional leading sign; returns (isNegative, rest). -/
def splitSign : Text → Bool × Text
  | '-' :: r => (true, r)
  | '+' :: r => (false, r)
  | r => (false, r)

/-- Parse one unsigned Python numeric literal (integer or float form) from
the front of the text, returning its rational value and the rest.
Mirrors Python's literal grammar: `digits` (no leading zeros unless zero),
`digits . digits?`, or `. digits`; float forms allow leading zeros. -/
def parseMantissa (cs : Text) : Option (ℚ × Text) :=
  let p := cs.span isDigitChar
  match p.2 with
  | '.' :: r =>
      let q := r.span isDigitChar
      if p.1.isEmpty && q.1.isEmpty then none
      else some ((digitsVal p.1 : ℚ) + (digitsVal q.1 : ℚ) / (10 : ℚ) ^ q.1.length, q.2)
  | _ => if intLiteralOK p.1 then some ((digitsVal p.1 : ℚ), p.2) else none

/-- Model of `float(eval(text))` for a bound field after the `^ → **`
rewrite: an optionally signed literal, optionally followed by `**` and an
optionally signed integer literal.  Python precedence makes `-2**2 = -4`,
so the leading sign is applied after the power; `0 ** n` with `n < 0`
raises `ZeroDivisionError`, modelled as `none`. -/
def parseBoundNum (cs : Text) : Option ℚ :=
  let s := splitSign cs
  match parseMantissa s.2 with
  | none => none
  | some (m, rest) =>
    match rest with
    | [] => some (if s.1 then -m else m)
    | '*' :: '*' :: r2 =>
        let se := splitSign r2
        let ds := se.2.span isDigitChar
        if ds.2.isEmpty && intLiteralOK ds.1 then
          let n : ℤ := if se.1 then -(digitsVal ds.1 : ℤ) else (digitsVal ds.1 : ℤ)
          if m = 0 ∧ n < 0 then none
          else some (if s.1 then -(m ^ n) else m ^ n)
        else none
    | _ => none

/-- `float(eval(text.replace("^", "**")))` for a bound field
(main.py lines 215-216, 228-229).  Python's `eval` tolerates surrounding
whitespace, hence the strip; an unparsable text (any exception) is `none`. -/
def evalBound (cs : Text) : Option ℚ :=
  parseBoundNum (stripText (replaceCaret cs))

/-! Error-message constants (constants.py). -/

def MIN_VALUE_EMPTY_ERROR : String := "Error: The min value is empty"

def MIN_VALUE_INCORRECT_ERROR : String := "Error: The min value is incorrect"

def MAX_VALUE_EMPTY_ERROR : String := "Error: The max value is empty"

def MAX_VALUE_INCORRECT_ERROR : String := "Error: The max value is incorrect"

def MIN_MAX_ERROR : String := "Error: The min value must be less than the max value"

def FUNC_VALUE_EMPTY_ERROR : String := "Error: The function is empty"

def FUNC_VALUE_INCORRECT_ERROR : String := "Error: The function is incorrect"

/-- Outcome of `validate_and_return_min_max`: the text set on each bound's
error label (none = label left blank) and the returned interval. -/
structure MinMaxResult where
  minError : Option String
  maxError : Option String
  interval : Option (ℚ × ℚ)
deriving DecidableEq

/-- One bound field's branch of `validate_and_return_min_max`
(main.py lines 208-232): empty raw text gives the field's empty error
(note: Python's `if not min_value` is true only for the empty string);
otherwise the text is evaluated, a failure giving the field's
incorrect error. -/
def parseBoundField (text : Text) (emptyMsg badMsg : String) : Except String ℚ :=
  if text.isEmpty then .error emptyMsg
  else
    match evalBound text with
    | some q => .ok q
    | none => .error badMsg

/-- `MainWindow.validate_and_return_min_max` (main.py lines 195-240):
both fields are validated independently (no short-circuit), then the
range check `max == min or max < min` attaches the range error to both
labels; the interval is returned only when everything passed. -/
def validate_and_return_min_max (minText maxText : Text) : MinMaxResult :=
  match parseBoundField minText MIN_VALUE_EMPTY_ERROR MIN_VALUE_INCORRECT_ERROR,
        parseBoundField maxText MAX_VALUE_EMPTY_ERROR MAX_VALUE_INCORRECT_ERROR with
  | .ok mn, .ok mx =>
      if mx = mn ∨ mx < mn then ⟨some MIN_MAX_ERROR, some MIN_MAX_ERROR, none⟩
      else ⟨none, none, some (mn, mx)⟩
  | .ok _, .error e => ⟨none, some e, none⟩
  | .error e, .ok _ => ⟨some e, none, none⟩
  | .error e₁, .error e₂ => ⟨some e₁, some e₂, none⟩

/-! The character-level input mask of the bound fields
(custom_widgets.py lines 228-238): the QRegExpValidator built from
`[-+]?[0-9]*\.?[0-9]+([\^][-+]?[0-9]+)?` (the `replace("e", "^")` on that
pattern is a no-op, the pattern contains no `e`). -/

/-- Exact match of the bound-field mask regex. -/
def boundMaskExp : Text → Bool
  | [] => true
  | '^' :: r =>
      let r1 := (splitSign r).2
      let p := r1.span isDigitChar
      !p.1.isEmpty && p.2.isEmpty
  | _ => false

/-- Exact match of `[-+]?[0-9]*\.?[0-9]+([\^][-+]?[0-9]+)?`. -/
def boundMaskMatch (cs : Text) : Bool :=
  let cs1 := (splitSign cs).2
  let p := cs1.span isDigitChar
  match p.2 with
  | '.' :: r =>
      let q := r.span isDigitChar
      !q.1.isEmpty && boundMaskExp q.2
  | r => !p.1.isEmpty && boundMaskExp r

/-- The validator admits a text while typing when the regex matches the
text exactly or could match an extension of it (Qt's Intermediate state). -/
def maskAdmissible (cs : Text) : Prop :=
  ∃ ds, boundMaskMatch (cs ++ ds) = true

/-! ## The expression evaluator

`validate_function` runs `eval(function_str.replace("^", "**"))` with the
sample array in scope as `x` (main.py lines 184-190).  A Python value
relevant to this pipeline is a scalar number, a numpy array (or list), or a
non-numeric object such as a builtin function; evaluation can raise, which
is modelled with `Except`. -/

/-- A Python value produced by evaluating an expression. -/
inductive PyVal where
  | scalar (q : ℚ)
  | arr (l : List ℚ)
  | builtin (name : String)
deriving DecidableEq

/-- The exception raised by an evaluation (all are caught alike). -/
inductive PyErr where
  | nameError
  | syntaxError
  | zeroDivision
  | typeError
deriving DecidableEq

/-- Binary arithmetic operators of the modelled fragment. -/
inductive BinOp where
  | add
  | sub
  | mul
  | div
  | pow
deriving DecidableEq

/-- Abstract syntax of a parsed Python arithmetic expression. -/
inductive PyExpr where
  | num (q : ℚ)
  | ident (name : String)
  | neg (e : PyExpr)
  | pos (e : PyExpr)
  | bin (op : BinOp) (a b : PyExpr)
deriving DecidableEq

/-- Python builtins visible to `eval` that a bare identifier can name
(the application's globals also hold modules, which behave the same way
for the claims: a non-numeric, non-array value). -/
def pyBuiltinNames : List String :=
  ["abs", "min", "max", "pow", "round", "sum"]

/-- numpy's elementwise arithmetic on doubles, idealized over ℚ: it never
raises, `x / 0` yields `inf` and a fractional power of a negative base
yields `nan`, both idealized as the junk value `0` (division by zero is
already `0` in ℚ); no claim touches these points. -/
def binFloat (op : BinOp) (a b : ℚ) : ℚ :=
  match op with
  | .add => a + b
  | .sub => a - b
  | .mul => a * b
  | .div => a / b
  | .pow => if b.den = 1 then a ^ b.num else 0

/-- One binary operation on Python values.  Scalar-scalar division by zero
and `0 ** n` for `n < 0` raise `ZeroDivisionError`; a fractional scalar
power is outside the rational model and modelled as a raise; any operand
that is a builtin function raises `TypeError`; numpy broadcasts a scalar
against an array and requires equal lengths for array-array operations. -/
def evalBin (op : BinOp) (v w : PyVal) : Except PyErr PyVal :=
  match v, w with
  | .scalar a, .scalar b =>
      match op with
      | .div => if b = 0 then .error .zeroDivision else .ok (.scalar (a / b))
      | .pow =>
          if b.den = 1 then
            if a = 0 ∧ b.num < 0 then .error .zeroDivision
            else .ok (.scalar (a ^ b.num))
          else .error .typeError
      | _ => .ok (.scalar (binFloat op a b))
  | .scalar a, .arr l => .ok (.arr (l.map (fun b => binFloat op a b)))
  | .arr l, .scalar b => .ok (.arr (l.map (fun a => binFloat op a b)))
  | .arr l, .arr m =>
      if l.length = m.length then .ok (.arr (List.zipWith (binFloat op) l m))
      else .error .typeError
  | _, _ => .error .typeError

/-- Unary minus on a Python value. -/
def evalUnaryNeg : PyVal → Except PyErr PyVal
  | .scalar q => .ok (.scalar (-q))
  | .arr l => .ok (.arr (l.map (fun q => -q)))
  | .builtin _ => .error .typeError

/-- Unary plus on a Python value. -/
def evalUnaryPos : PyVal → Except PyErr PyVal
  | .scalar q => .ok (.scalar q)
  | .arr l => .ok (.arr l)
  | .builtin _ => .error .typeError

/-- Evaluate an expression with the sample array bound to `x`; any other
identifier resolves to a Python builtin or raises `NameError`.
Operands evaluate left to right, the first raise propagating. -/
def evalPyExpr (xs : List ℚ) : PyExpr → Except PyErr PyVal
  | .num q => .ok (.scalar q)
  | .ident n =>
      if n = "x" then .ok (.arr xs)
      else if n ∈ pyBuiltinNames then .ok (.builtin n)
      else .error .nameError
  | .neg e =>
      match evalPyExpr xs e with
      | .error er => .error er
      | .ok v => evalUnaryNeg v
  | .pos e =>
      match evalPyExpr xs e with
      | .error er => .error er
      | .ok v => evalUnaryPos v
  | .bin op a b =>
      match evalPyExpr xs a with
      | .error er => .error er
      | .ok v =>
          match evalPyExpr xs b with
          | .error er => .error er
          | .ok w => evalBin op v w

/-! ### Tokenizer and parser for Python arithmetic expressions -/

/-- Tokens of the modelled expression fragment (after the `^ → **`
rewrite, so the power operator is the double star). -/
inductive Tok where
  | num (q : ℚ)
  | ident (s : String)
  | plus
  | minus
  | star
  | slash
  | dstar
  | lparen
  | rparen
deriving DecidableEq

/-- Identifier head character (letter or underscore). -/
def isAlphaChar (c : Char) : Bool :=
  ('a' ≤ c && c ≤ 'z') || ('A' ≤ c && c ≤ 'Z') || c == '_'

/-- Identifier continuation character. -/
def isIdentChar (c : Char) : Bool :=
  isAlphaChar c || isDigitChar c

/-- Tokenize an expression text; `none` models a Python tokenizer
`SyntaxError` (an unknown character or a malformed literal).  The fuel
decreases on every step and each step consumes at least one character,
so `length + 1` fuel always suffices. -/
def tokenizeAux : ℕ → Text → Option (List Tok)
  | _, [] => some []
  | 0, _ :: _ => none
  | fuel + 1, c :: cs =>
      if isSpaceChar c then tokenizeAux fuel cs
      else if isDigitChar c || c == '.' then
        match parseMantissa (c :: cs) with
        | some (q, rest) => (tokenizeAux fuel rest).map (Tok.num q :: ·)
        | none => none
      else if isAlphaChar c then
        let p := (c :: cs).span isIdentChar
        (tokenizeAux fuel p.2).map (Tok.ident (String.mk p.1) :: ·)
      else
        match c, cs with
        | '*', '*' :: cs' => (tokenizeAux fuel cs').map (Tok.dstar :: ·)
        | '*', _ => (tokenizeAux fuel cs).map (Tok.star :: ·)
        | '/', _ => (tokenizeAux fuel cs).map (Tok.slash :: ·)
        | '+', _ => (tokenizeAux fuel cs).map (Tok.plus :: ·)
        | '-', _ => (tokenizeAux fuel cs).map (Tok.minus :: ·)
        | '(', _ => (tokenizeAux fuel cs).map (Tok.lparen :: ·)
        | ')', _ => (tokenizeAux fuel cs).map (Tok.rparen :: ·)
        | _, _ => none

/-- Parser mode: the nonterminal being parsed, with the accumulator of a
left-associative operator chain where one is in progress.  This encodes
Python's precedence: `arith` (+,-) over `term` (*,/) over signed `factor`
over `power` (`**`, right-associative with a signed factor as exponent)
over `atom`. -/
inductive ParseMode where
  | arith
  | arithLoop (acc : PyExpr)
  | term
  | termLoop (acc : PyExpr)
  | factor
  | power
  | atom

/-- Recursive-descent parser over tokens, by structural recursion on
fuel. -/
def parseF : ℕ → ParseMode → List Tok → Option (PyExpr × List Tok)
  | 0, _, _ => none
  | fuel + 1, .arith, ts =>
      match parseF fuel .term ts with
      | some (e, r) => parseF fuel (.arithLoop e) r
      | none => none
  | fuel + 1, .arithLoop acc, ts =>
      match ts with
      | .plus :: r =>
          match parseF fuel .term r with
          | some (e, r') => parseF fuel (.arithLoop (.bin .add acc e)) r'
          | none => none
      | .minus :: r =>
          match parseF fuel .term r with
          | some (e, r') => parseF fuel (.arithLoop (.bin .sub acc e)) r'
          | none => none
      | _ => some (acc, ts)
  | fuel + 1, .term, ts =>
      match parseF fuel .factor ts with
      | some (e, r) => parseF fuel (.termLoop e) r
      | none => none
  | fuel + 1, .termLoop acc, ts =>
      match ts with
      | .star :: r =>
          match parseF fuel .factor r with
          | some (e, r') => parseF fuel (.termLoop (.bin .mul acc e)) r'
          | none => none
      | .slash :: r =>
          match parseF fuel .factor r with
          | some (e, r') => parseF fuel (.termLoop (.bin .div acc e)) r'
          | none => none
      | _ => some (acc, ts)
  | fuel + 1, .factor, ts =>
      match ts with
      | .plus :: r => (parseF fuel .factor r).map (fun p => (.pos p.1, p.2))
      | .minus :: r => (parseF fuel .factor r).map (fun p => (.neg p.1, p.2))
      | _ => parseF fuel .power ts
  | fuel + 1, .power, ts =>
      match parseF fuel .atom ts with
      | some (a, r) =>
          match r with
          | .dstar :: r' => (parseF fuel .factor r').map (fun p => (.bin .pow a p.1, p.2))
          | _ => some (a, r)
      | none => none
  | fuel + 1, .atom, ts =>
      match ts with
      | .num q :: r => some (.num q, r)
      | .ident s :: r => some (.ident s, r)
      | .lparen :: r =>
          match parseF fuel .arith r with
          | some (e, .rparen :: r') => some (e, r')
          | _ => none
      | _ => none

/-- Parse a whole expression text; `none` models a `SyntaxError`. -/
def parseExpression (cs : Text) : Option PyExpr :=
  match tokenizeAux (cs.length + 1) cs with
  | none => none
  | some ts =>
      match parseF (10 * ts.length + 10) .arith ts with
      | some (e, []) => some e
      | _ => none

/-- `eval(function_str.replace("^", "**"))` with the sample array bound to
`x` (main.py lines 187-190): a parse failure or an evaluation raise is an
`Except.error`. -/
def evalFunc (funcText : Text) (xs : List ℚ) : Except PyErr PyVal :=
  match parseExpression (replaceCaret funcText) with
  | none => .error .syntaxError
  | some e => evalPyExpr xs e

/-- `np.linspace(min_value, max_value, n)` (main.py line 184), exact over
ℚ: `n` evenly spaced points from `a` to `b`, both endpoints included. -/
def linspaceQ (a b : ℚ) (n : ℕ) : List ℚ :=
  (List.range n).map (fun i : ℕ => a + (b - a) * (i : ℚ) / ((n : ℚ) - 1))

/-! ## The validation pipeline and the rendering sink -/

/-- Outcome of `MainWindow.validate_function`: the three error labels
(none = label left blank after `reset_errors`) and the returned triple
(x-sequence, evaluated value, original function text). -/
structure ValidationResult where
  funcError : Option String
  minError : Option String
  maxError : Option String
  result : Option (List ℚ × PyVal × Text)

/-- `MainWindow.validate_function` (main.py lines 154-193): reset all
error labels; a blank (stripped-empty) function text sets the
function-empty error; the bounds are validated regardless; only when the
function text is non-blank and the interval is valid is the expression
evaluated over `np.linspace(min, max, 1000)`, any raise being caught and
normalized to the function-incorrect error. -/
def validate_function (funcText minText maxText : Text) : ValidationResult :=
  let mm := validate_and_return_min_max minText maxText
  match mm.interval, (stripText funcText).isEmpty with
  | some (mn, mx), false =>
      match evalFunc funcText (linspaceQ mn mx 1000) with
      | .ok v =>
          ⟨none, mm.minError, mm.maxError, some (linspaceQ mn mx 1000, v, funcText)⟩
      | .error _ =>
          ⟨some FUNC_VALUE_INCORRECT_ERROR, mm.minError, mm.maxError, none⟩
  | _, true => ⟨some FUNC_VALUE_EMPTY_ERROR, mm.minError, mm.maxError, none⟩
  | none, false => ⟨none, mm.minError, mm.maxError, none⟩

/-- The state of the Matplotlib axes inside the canvas: plotted lines,
title, axis labels and the grid flag. -/
structure AxesState where
  lines : List (List ℚ × List PyVal)
  title : Text
  xlabel : Text
  ylabel : Text
  grid : Bool
deriving DecidableEq

/-- The canvas: its figure either holds axes or was cleared. -/
structure CanvasState where
  axes : Option AxesState
deriving DecidableEq

/-- The axes produced by `CustomCanvas.default_config`: no lines, a fresh
(blank-titled) subplot with the grid and the two axis labels. -/
def defaultAxes : AxesState :=
  ⟨[], [], "X".toList, "f(X)".toList, true⟩

/-- `CustomCanvas.default_config` (custom_widgets.py lines 61-80): clear
the axes if any, clear the figure, then add a fresh configured subplot.
The resulting state does not depend on the previous one. -/
def default_config (_c : CanvasState) : CanvasState :=
  ⟨some defaultAxes⟩

/-- The title string set by `replot_function`: `f"f(x) = {function_str}"`
(custom_widgets.py line 52). -/
def titleText (functionStr : Text) : Text :=
  "f(x) = ".toList ++ functionStr

/-- `CustomCanvas.replot_function` (custom_widgets.py lines 36-59): reset
to the default configuration, set the title from the function string, and
plot the line. -/
def replot_function (c : CanvasState) (x : List ℚ) (y : List PyVal) (functionStr : Text) :
    CanvasState :=
  match (default_config c).axes with
  | some a => ⟨some { a with title := titleText functionStr, lines := a.lines ++ [(x, y)] }⟩
  | none => ⟨none⟩

/-- Outcome of one click of the Plot button. -/
structure PlotOutcome where
  canvas : CanvasState
  toolbarEnabled : Bool
  sink : Option (List ℚ × List PyVal × Text)

/-- `MainWindow.plot` (main.py lines 126-152): clear the canvas, validate;
on failure disable the toolbar and stop; otherwise broadcast a
non-array, non-list result over the length of `x` and hand the Sample Set
to the rendering sink.  `sink` records the `(x, y, title)` the canvas
receives (none when nothing is drawn). -/
def plot (c : CanvasState) (funcText minText maxText : Text) : PlotOutcome :=
  let c₁ := default_config c
  match (validate_function funcText minText maxText).result with
  | none => ⟨c₁, false, none⟩
  | some (x, v, s) =>
      let y : List PyVal :=
        match v with
        | .arr l => l.map PyVal.scalar
        | v => List.replicate x.length v
      ⟨replot_function c₁ x y s, true, some (x, y, titleText s)⟩

/-! ## Helper lemmas and sanity checks -/

example : evalBound ("-10".toList) = some (-10) := by decide
example : evalBound ("-".toList) = none := by decide
example : evalBound ("+".toList) = none := by decide
example : evalBound ("012".toList) = none := by decide
example : evalBound ("00".toList) = some 0 := by decide
example : evalBound (" 5 ".toList) = some 5 := by decide
example : evalBound ([' '] : Text) = none := by decide
example : parseExpression (replaceCaret ("x^2+2".toList)) =
    some (.bin .add (.bin .pow (.ident "x") (.num 2)) (.num 2)) := by decide
example : parseExpression (replaceCaret ("abs".toList)) = some (.ident "abs") := by decide
example : parseExpression ("asdwrewfewf".toList) = some (.ident "asdwrewfewf") := by decide
example : evalFunc ("z^2+2".toList) [] = .error .nameError := rfl

theorem evalBound_nil : evalBound ([] : Text) = none := rfl

theorem parseBoundField_nil (e b : String) : parseBoundField [] e b = .error e := rfl

theorem parseBoundField_ok {t : Text} {q : ℚ} (h : evalBound t = some q) (e b : String) :
    parseBoundField t e b = .ok q := by
  have ht : t.isEmpty = false := by
    cases t with
    | nil => rw [evalBound_nil] at h; exact Option.noConfusion h
    | cons c cs => rfl
  simp [parseBoundField, ht, h]

theorem replaceCaret_of_not_mem {cs : Text} (h : '^' ∉ cs) : replaceCaret cs = cs := by
  induction cs with
  | nil => rfl
  | cons c cs ih =>
      rw [replaceCaret, if_neg (fun (he : c = '^') => h (he ▸ List.mem_cons_self c cs)),
        ih (fun hm => h (List.mem_cons_of_mem _ hm))]

theorem stripText_all_space {cs : Text} (h : ∀ c ∈ cs, isSpaceChar c = true) :
    stripText cs = [] := by
  unfold stripText
  rw [List.dropWhile_eq_nil_iff.mpr h]
  rfl

theorem evalBound_all_space {cs : Text} (h : ∀ c ∈ cs, isSpaceChar c = true) :
    evalBound cs = none := by
  have hrc : replaceCaret cs = cs := replaceCaret_of_not_mem (fun hm => by
    have hs := h _ hm
    rw [show isSpaceChar '^' = false from rfl] at hs
    exact Bool.noConfusion hs)
  rw [evalBound, hrc, stripText_all_space h]
  rfl

theorem parseBoundField_space {t : Text} (hne : t ≠ []) (h : ∀ c ∈ t, isSpaceChar c = true)
    (e b : String) : parseBoundField t e b = .error b := by
  have ht : t.isEmpty = false := by
    cases t with
    | nil => exact absurd rfl hne
    | cons c cs => rfl
  simp [parseBoundField, ht, evalBound_all_space h]

/-! ## Claims C2, C6, C8, C9 -/

/-- C2: for every pair of bound texts that both parse to numeric values
`mn` and `mx`: if `mn < mx` the validator returns the interval `(mn, mx)`
with no errors; if `mx ≤ mn` (including equality) it returns no interval
and attaches the range-invalid error to both fields. -/
theorem c2_range_validator_ordering (mT MT : Text) (mn mx : ℚ)
    (hm : evalBound mT = some mn) (hM : evalBound MT = some mx) :
    (mn < mx →
      validate_and_return_min_max mT MT = ⟨none, none, some (mn, mx)⟩) ∧
    (mx ≤ mn →
      validate_and_return_min_max mT MT = ⟨some MIN_MAX_ERROR, some MIN_MAX_ERROR, none⟩) := by
  have h1 := parseBoundField_ok hm MIN_VALUE_EMPTY_ERROR MIN_VALUE_INCORRECT_ERROR
  have h2 := parseBoundField_ok hM MAX_VALUE_EMPTY_ERROR MAX_VALUE_INCORRECT_ERROR
  unfold validate_and_return_min_max
  simp only [h1, h2]
  constructor
  · intro hlt
    rw [if_neg]
    rintro (he | hl)
    · exact absurd he (ne_of_gt hlt)
    · exact absurd hl (not_lt.mpr hlt.le)
  · intro hle
    rw [if_pos]
    rcases lt_or_eq_of_le hle with h | h
    · exact Or.inr h
    · exact Or.inl h

/-- Witness for C2 at the concrete pairs (-10, 10) and (5, 5). -/
theorem c2_witness :
    validate_and_return_min_max ("-10".toList) ("10".toList) = ⟨none, none, some (-10, 10)⟩ ∧
    validate_and_return_min_max ("5".toList) ("5".toList) =
      ⟨some MIN_MAX_ERROR, some MIN_MAX_ERROR, none⟩ :=
  ⟨(c2_range_validator_ordering _ _ _ _ (by decide) (by decide)).1 (by norm_num),
   (c2_range_validator_ordering _ _ _ _ (by decide) (by decide)).2 (le_refl 5)⟩

/-- C6 counterexample: the whitespace-only min text `" "` yields the
"incorrect" (malformed) error kind, not the "empty" kind the claim
demands: the code's emptiness test `if not min_value` is true only for
the empty string, and `eval(" ")` raises. -/
theorem c6_counterexample :
    validate_and_return_min_max ([' '] : Text) ("10".toList) =
      ⟨some MIN_VALUE_INCORRECT_ERROR, none, none⟩ ∧
    (validate_and_return_min_max ([' '] : Text) ("10".toList)).minError ≠
      some MIN_VALUE_EMPTY_ERROR := by
  constructor
  · decide
  · decide

/-- C6 amended: a bound text that is the empty string yields the "empty"
error kind for its field; a non-empty whitespace-only bound text instead
yields the "invalid" (malformed) kind. -/
theorem c6_empty_kind_amended (mT MT : Text) :
    ((validate_and_return_min_max [] MT).minError = some MIN_VALUE_EMPTY_ERROR) ∧
    ((validate_and_return_min_max mT []).maxError = some MAX_VALUE_EMPTY_ERROR) ∧
    (mT ≠ [] → (∀ c ∈ mT, isSpaceChar c = true) →
      (validate_and_return_min_max mT MT).minError = some MIN_VALUE_INCORRECT_ERROR) ∧
    (MT ≠ [] → (∀ c ∈ MT, isSpaceChar c = true) →
      (validate_and_return_min_max mT MT).maxError = some MAX_VALUE_INCORRECT_ERROR) := by
  refine ⟨?_, ?_, ?_, ?_⟩
  · unfold validate_and_return_min_max
    rw [parseBoundField_nil]
    rcases parseBoundField MT MAX_VALUE_EMPTY_ERROR MAX_VALUE_INCORRECT_ERROR with e | b <;> simp
  · unfold validate_and_return_min_max
    rw [parseBoundField_nil]
    rcases parseBoundField mT MIN_VALUE_EMPTY_ERROR MIN_VALUE_INCORRECT_ERROR with e | a <;> simp
  · intro hne hsp
    unfold validate_and_return_min_max
    rw [parseBoundField_space hne hsp]
    rcases parseBoundField MT MAX_VALUE_EMPTY_ERROR MAX_VALUE_INCORRECT_ERROR with e | b <;> simp
  · intro hne hsp
    unfold validate_and_return_min_max
    rw [parseBoundField_space hne hsp]
    rcases parseBoundField mT MIN_VALUE_EMPTY_ERROR MIN_VALUE_INCORRECT_ERROR with e | a <;> simp

/-- Witness for the amended C6 at the empty text and at `" "`. -/
theorem c6_witness :
    (validate_and_return_min_max [] ("10".toList)).minError = some MIN_VALUE_EMPTY_ERROR ∧
    (validate_and_return_min_max ([' '] : Text) ("10".toList)).minError =
      some MIN_VALUE_INCORRECT_ERROR ∧
    (validate_and_return_min_max ("10".toList) ([' '] : Text)).maxError =
      some MAX_VALUE_INCORRECT_ERROR :=
  ⟨(c6_empty_kind_amended [] ("10".toList)).1,
   (c6_empty_kind_amended [' '] ("10".toList)).2.2.1 (by decide) (by decide),
   (c6_empty_kind_amended ("10".toList) [' ']).2.2.2 (by decide) (by decide)⟩

/-- C8: a lone `-` or `+` is admissible under the character-level input
mask (it extends to a full match, e.g. `-1`, though it does not match by
itself), yet the validator rejects it with the "incorrect" (malformed)
error kind for that field and returns no interval. -/
theorem c8_lone_sign_mask :
    maskAdmissible ['-'] ∧ maskAdmissible ['+'] ∧
    boundMaskMatch ['-'] = false ∧ boundMaskMatch ['+'] = false ∧
    validate_and_return_min_max ['-'] ("10".toList) =
      ⟨some MIN_VALUE_INCORRECT_ERROR, none, none⟩ ∧
    validate_and_return_min_max ['+'] ("10".toList) =
      ⟨some MIN_VALUE_INCORRECT_ERROR, none, none⟩ ∧
    validate_and_return_min_max ("-10".toList) ['-'] =
      ⟨none, some MAX_VALUE_INCORRECT_ERROR, none⟩ ∧
    validate_and_return_min_max ("-10".toList) ['+'] =
      ⟨none, some MAX_VALUE_INCORRECT_ERROR, none⟩ :=
  ⟨⟨['1'], by decide⟩, ⟨['1'], by decide⟩, by decide, by decide,
   by decide, by decide, by decide, by decide⟩

theorem minMax_interval_some {mT MT : Text} {mn mx : ℚ}
    (h : (validate_and_return_min_max mT MT).interval = some (mn, mx)) :
    validate_and_return_min_max mT MT = ⟨none, none, some (mn, mx)⟩ := by
  unfold validate_and_return_min_max at h ⊢
  rcases h1 : parseBoundField mT MIN_VALUE_EMPTY_ERROR MIN_VALUE_INCORRECT_ERROR with e | a <;>
    rcases h2 : parseBoundField MT MAX_VALUE_EMPTY_ERROR MAX_VALUE_INCORRECT_ERROR with f | b <;>
    simp only [h1, h2] at h ⊢ <;>
    first
      | exact absurd h (by simp)
      | (split at h <;> simp_all)

theorem validate_function_blank {fT : Text} (mT MT : Text)
    (h : (stripText fT).isEmpty = true) :
    validate_function fT mT MT =
      ⟨some FUNC_VALUE_EMPTY_ERROR, (validate_and_return_min_max mT MT).minError,
        (validate_and_return_min_max mT MT).maxError, none⟩ := by
  unfold validate_function
  rcases hI : (validate_and_return_min_max mT MT).interval with _ | ⟨mn, mx⟩ <;> simp [hI, h]

theorem validate_function_noInterval {fT mT MT : Text}
    (hB : (stripText fT).isEmpty = false)
    (hI : (validate_and_return_min_max mT MT).interval = none) :
    validate_function fT mT MT =
      ⟨none, (validate_and_return_min_max mT MT).minError,
        (validate_and_return_min_max mT MT).maxError, none⟩ := by
  unfold validate_function
  simp [hI, hB]

theorem validate_function_eval {fT mT MT : Text} {mn mx : ℚ}
    (hB : (stripText fT).isEmpty = false)
    (hI : (validate_and_return_min_max mT MT).interval = some (mn, mx)) :
    validate_function fT mT MT =
      match evalFunc fT (linspaceQ mn mx 1000) with
      | .ok v => ⟨none, none, none, some (linspaceQ mn mx 1000, v, fT)⟩
      | .error _ => ⟨some FUNC_VALUE_INCORRECT_ERROR, none, none, none⟩ := by
  have hfull := minMax_interval_some hI
  unfold validate_function
  rw [hfull]
  simp only [hB]

/-- C3: if evaluating the non-blank expression over the sample points
raises any error whatsoever, the outcome is exactly the function-invalid
error with no Sample Set (`result = none`) and blank bound labels; the
embedded pipeline is a total function, so no exception reaches the
caller. -/
theorem c3_eval_error_normalized (fT mT MT : Text) (mn mx : ℚ) (err : PyErr)
    (hB : (stripText fT).isEmpty = false)
    (hI : (validate_and_return_min_max mT MT).interval = some (mn, mx))
    (hE : evalFunc fT (linspaceQ mn mx 1000) = .error err) :
    validate_function fT mT MT = ⟨some FUNC_VALUE_INCORRECT_ERROR, none, none, none⟩ := by
  rw [validate_function_eval hB hI, hE]

/-- Witness for C3 at the unknown-symbol expression `"z^2+2"` over
(-10, 10). -/
theorem c3_witness :
    validate_function ("z^2+2".toList) ("-10".toList) ("10".toList) =
      ⟨some FUNC_VALUE_INCORRECT_ERROR, none, none, none⟩ :=
  c3_eval_error_normalized _ _ _ (-10) 10 .nameError (by decide) (by decide) rfl

theorem validate_function_labels (fT mT MT : Text) :
    (validate_function fT mT MT).minError = (validate_and_return_min_max mT MT).minError ∧
    (validate_function fT mT MT).maxError = (validate_and_return_min_max mT MT).maxError := by
  cases hI : (validate_and_return_min_max mT MT).interval with
  | none =>
      cases hB : (stripText fT).isEmpty with
      | true => rw [validate_function_blank mT MT hB]; exact ⟨rfl, rfl⟩
      | false => rw [validate_function_noInterval hB hI]; exact ⟨rfl, rfl⟩
  | some p =>
      obtain ⟨mn, mx⟩ := p
      cases hB : (stripText fT).isEmpty with
      | true => rw [validate_function_blank mT MT hB]; exact ⟨rfl, rfl⟩
      | false =>
          rw [validate_function_eval hB hI, minMax_interval_some hI]
          cases hE : evalFunc fT (linspaceQ mn mx 1000) with
          | error er => exact ⟨rfl, rfl⟩
          | ok v => exact ⟨rfl, rfl⟩

/-- C4: within a single validation pass no field short-circuits another:
the bound labels always equal what the standalone range validator
produces, a blank function text always sets the function-empty error, and
when the function text is non-blank but the interval is invalid the
expression is not evaluated (no function error is set) and no Sample Set
is produced. -/
theorem c4_no_short_circuit (fT mT MT : Text) :
    (validate_function fT mT MT).minError = (validate_and_return_min_max mT MT).minError ∧
    (validate_function fT mT MT).maxError = (validate_and_return_min_max mT MT).maxError ∧
    ((stripText fT).isEmpty = true →
      (validate_function fT mT MT).funcError = some FUNC_VALUE_EMPTY_ERROR ∧
      (validate_function fT mT MT).result = none) ∧
    ((stripText fT).isEmpty = false →
      (validate_and_return_min_max mT MT).interval = none →
      (validate_function fT mT MT).funcError = none ∧
      (validate_function fT mT MT).result = none) := by
  refine ⟨(validate_function_labels fT mT MT).1, (validate_function_labels fT mT MT).2,
    fun hB => ?_, fun hB hI => ?_⟩
  · rw [validate_function_blank mT MT hB]; exact ⟨rfl, rfl⟩
  · rw [validate_function_noInterval hB hI]; exact ⟨rfl, rfl⟩

/-- Witness for C4: all three empty-field errors are reported together on
fully blank input, and a non-blank function with an invalid range gets no
function error (evaluation deferred). -/
theorem c4_witness :
    (validate_function [] [] []).funcError = some FUNC_VALUE_EMPTY_ERROR ∧
    (validate_function [] [] []).minError = some MIN_VALUE_EMPTY_ERROR ∧
    (validate_function [] [] []).maxError = some MAX_VALUE_EMPTY_ERROR ∧
    (validate_function ("x".toList) ("5".toList) ("1".toList)).funcError = none ∧
    (validate_function ("x".toList) ("5".toList) ("1".toList)).result = none :=
  ⟨((c4_no_short_circuit [] [] []).2.2.1 (by decide)).1,
   ((c4_no_short_circuit [] [] []).1).trans (by decide),
   ((c4_no_short_circuit [] [] []).2.1).trans (by decide),
   ((c4_no_short_circuit ("x".toList) ("5".toList) ("1".toList)).2.2.2 (by decide) (by decide)).1,
   ((c4_no_short_circuit ("x".toList) ("5".toList) ("1".toList)).2.2.2 (by decide) (by decide)).2⟩

theorem evalBin_scalar_scalar_not_arr (op : BinOp) (a b : ℚ) (l : List ℚ) :
    evalBin op (.scalar a) (.scalar b) ≠ .ok (.arr l) := by
  intro h
  cases op <;> simp only [evalBin] at h <;> (try split_ifs at h) <;> simp_all

theorem evalBin_arr_length {op : BinOp} {v w : PyVal} {l : List ℚ} {n : ℕ}
    (hv : ∀ m, v = .arr m → m.length = n) (hw : ∀ m, w = .arr m → m.length = n)
    (h : evalBin op v w = .ok (.arr l)) : l.length = n := by
  cases v with
  | scalar a =>
      cases w with
      | scalar b => exact absurd h (evalBin_scalar_scalar_not_arr op a b l)
      | arr m =>
          simp only [evalBin, Except.ok.injEq, PyVal.arr.injEq] at h
          rw [← h, List.length_map]
          exact hw m rfl
      | builtin s => simp [evalBin] at h
  | arr m =>
      cases w with
      | scalar b =>
          simp only [evalBin, Except.ok.injEq, PyVal.arr.injEq] at h
          rw [← h, List.length_map]
          exact hv m rfl
      | arr m' =>
          simp only [evalBin] at h
          split_ifs at h with hlen
          simp only [Except.ok.injEq, PyVal.arr.injEq] at h
          rw [← h, List.length_zipWith, hv m rfl, hw m' rfl, min_self]
      | builtin s => simp [evalBin] at h
  | builtin s => cases w <;> simp [evalBin] at h

theorem evalPyExpr_arr_length {xs : List ℚ} {e : PyExpr} :
    ∀ l, evalPyExpr xs e = .ok (.arr l) → l.length = xs.length := by
  induction e with
  | num q => intro l h; simp [evalPyExpr] at h
  | ident n =>
      intro l h
      simp only [evalPyExpr] at h
      split_ifs at h with h1 h2
      · simp only [Except.ok.injEq, PyVal.arr.injEq] at h
        rw [← h]
      · exact absurd h (by simp)
  | neg e ih =>
      intro l h
      simp only [evalPyExpr] at h
      cases he : evalPyExpr xs e with
      | error er => rw [he] at h; simp at h
      | ok v =>
          rw [he] at h
          cases v with
          | scalar q => simp [evalUnaryNeg] at h
          | arr m =>
              simp only [evalUnaryNeg, Except.ok.injEq, PyVal.arr.injEq] at h
              rw [← h, List.length_map]
              exact ih m he
          | builtin s => simp [evalUnaryNeg] at h
  | pos e ih =>
      intro l h
      simp only [evalPyExpr] at h
      cases he : evalPyExpr xs e with
      | error er => rw [he] at h; simp at h
      | ok v =>
          rw [he] at h
          cases v with
          | scalar q => simp [evalUnaryPos] at h
          | arr m =>
              simp only [evalUnaryPos, Except.ok.injEq, PyVal.arr.injEq] at h
              rw [← h]
              exact ih m he
          | builtin s => simp [evalUnaryPos] at h
  | bin op a b iha ihb =>
      intro l h
      simp only [evalPyExpr] at h
      cases ha : evalPyExpr xs a with
      | error er => rw [ha] at h; simp at h
      | ok v =>
          rw [ha] at h
          cases hb : evalPyExpr xs b with
          | error er => rw [hb] at h; simp at h
          | ok w =>
              rw [hb] at h
              exact evalBin_arr_length
                (fun m hm => iha m (hm ▸ ha)) (fun m hm => ihb m (hm ▸ hb)) h

theorem evalFunc_arr_length {fT : Text} {xs l : List ℚ}
    (h : evalFunc fT xs = .ok (.arr l)) : l.length = xs.length := by
  unfold evalFunc at h
  cases hp : parseExpression (replaceCaret fT) with
  | none => rw [hp] at h; exact Except.noConfusion h
  | some e => rw [hp] at h; exact evalPyExpr_arr_length l h

theorem validate_function_result_spec {fT mT MT : Text} {x : List ℚ} {v : PyVal} {s : Text}
    (h : (validate_function fT mT MT).result = some (x, v, s)) :
    (stripText fT).isEmpty = false ∧ s = fT ∧
    ∃ mn mx, validate_and_return_min_max mT MT = ⟨none, none, some (mn, mx)⟩ ∧
      x = linspaceQ mn mx 1000 ∧ evalFunc fT x = .ok v := by
  cases hB : (stripText fT).isEmpty with
  | true => rw [validate_function_blank mT MT hB] at h; exact absurd h (by simp)
  | false =>
      cases hI : (validate_and_return_min_max mT MT).interval with
      | none => rw [validate_function_noInterval hB hI] at h; exact absurd h (by simp)
      | some p =>
          obtain ⟨mn, mx⟩ := p
          rw [validate_function_eval hB hI] at h
          cases hE : evalFunc fT (linspaceQ mn mx 1000) with
          | error er => rw [hE] at h; simp at h
          | ok v' =>
              rw [hE] at h
              simp only [Option.some.injEq, Prod.mk.injEq] at h
              obtain ⟨hx, hv, hs⟩ := h
              subst hx; subst hv; subst hs
              exact ⟨rfl, rfl, mn, mx, minMax_interval_some hI, rfl, hE⟩

theorem plot_sink_spec {c : CanvasState} {fT mT MT : Text} {x : List ℚ} {y : List PyVal}
    {t : Text} (h : (plot c fT mT MT).sink = some (x, y, t)) :
    ∃ v, (validate_function fT mT MT).result = some (x, v, fT) ∧ t = titleText fT ∧
      ((∃ l, v = .arr l ∧ y = l.map PyVal.scalar) ∨
       ((∀ l, v ≠ .arr l) ∧ y = List.replicate x.length v)) := by
  unfold plot at h
  cases hR : (validate_function fT mT MT).result with
  | none => rw [hR] at h; simp at h
  | some p =>
      obtain ⟨x', v, s⟩ := p
      have hs : s = fT := (validate_function_result_spec hR).2.1
      subst hs
      rw [hR] at h
      cases v with
      | scalar q =>
          simp only [Option.some.injEq, Prod.mk.injEq] at h
          obtain ⟨hx, hy, ht⟩ := h
          subst hx
          exact ⟨.scalar q, rfl, ht.symm,
            Or.inr ⟨fun l hl => PyVal.noConfusion hl, hy.symm⟩⟩
      | arr l =>
          simp only [Option.some.injEq, Prod.mk.injEq] at h
          obtain ⟨hx, hy, ht⟩ := h
          subst hx
          exact ⟨.arr l, rfl, ht.symm, Or.inl ⟨l, rfl, hy.symm⟩⟩
      | builtin nm =>
          simp only [Option.some.injEq, Prod.mk.injEq] at h
          obtain ⟨hx, hy, ht⟩ := h
          subst hx
          exact ⟨.builtin nm, rfl, ht.symm,
            Or.inr ⟨fun l hl => PyVal.noConfusion hl, hy.symm⟩⟩

theorem plot_broadcast_helper (c : CanvasState) {fT mT MT : Text} {mn mx : ℚ} {v : PyVal}
    (hB : (stripText fT).isEmpty = false)
    (hI : (validate_and_return_min_max mT MT).interval = some (mn, mx))
    (hE : evalFunc fT (linspaceQ mn mx 1000) = .ok v)
    (harr : ∀ l, v ≠ .arr l) :
    (validate_function fT mT MT).funcError = none ∧
    (plot c fT mT MT).sink =
      some (linspaceQ mn mx 1000, List.replicate (linspaceQ mn mx 1000).length v,
        titleText fT) := by
  have hvf : validate_function fT mT MT =
      ⟨none, none, none, some (linspaceQ mn mx 1000, v, fT)⟩ := by
    rw [validate_function_eval hB hI, hE]
  refine ⟨by rw [hvf], ?_⟩
  cases v with
  | scalar q => simp [plot, hvf]
  | arr l => exact absurd rfl (harr l)
  | builtin nm => simp [plot, hvf]

/-- C5: every Sample Set handed to the rendering sink has a y-sequence of
the same length as its x-sequence, and when the expression evaluates to a
scalar the scalar is broadcast into a constant sequence of the
x-sequence's length. -/
theorem c5_sink_length_invariant :
    (∀ (c : CanvasState) (fT mT MT : Text) (x : List ℚ) (y : List PyVal) (t : Text),
      (plot c fT mT MT).sink = some (x, y, t) → y.length = x.length) ∧
    (∀ (c : CanvasState) (fT mT MT : Text) (mn mx q : ℚ),
      (stripText fT).isEmpty = false →
      (validate_and_return_min_max mT MT).interval = some (mn, mx) →
      evalFunc fT (linspaceQ mn mx 1000) = .ok (.scalar q) →
      (plot c fT mT MT).sink =
        some (linspaceQ mn mx 1000,
          List.replicate (linspaceQ mn mx 1000).length (PyVal.scalar q),
          titleText fT)) := by
  constructor
  · intro c fT mT MT x y t h
    obtain ⟨v, hres, ht, hcase⟩ := plot_sink_spec h
    obtain ⟨hB, hs, mn, mx, hmm', hx, hE⟩ := validate_function_result_spec hres
    rcases hcase with ⟨l, rfl, rfl⟩ | ⟨hnl, rfl⟩
    · rw [List.length_map]
      exact evalFunc_arr_length hE
    · exact List.length_replicate _ _
  · intro c fT mT MT mn mx q hB hI hE
    exact (plot_broadcast_helper c hB hI hE (fun l hl => PyVal.noConfusion hl)).2

/-- Witness for C5: the constant expression `"5"` over (0, 1) is broadcast
to a constant y-sequence whose length equals the x-sequence's. -/
theorem c5_witness :
    (plot ⟨none⟩ ("5".toList) ("0".toList) ("1".toList)).sink =
      some (linspaceQ 0 1 1000,
        List.replicate (linspaceQ 0 1 1000).length (PyVal.scalar 5),
        titleText ("5".toList)) ∧
    (List.replicate (linspaceQ 0 1 1000).length (PyVal.scalar 5)).length =
      (linspaceQ 0 1 1000).length := by
  have h1 := c5_sink_length_invariant.2 ⟨none⟩ ("5".toList) ("0".toList) ("1".toList) 0 1 5
    (by decide) (by decide) rfl
  exact ⟨h1, c5_sink_length_invariant.1 ⟨none⟩ ("5".toList) ("0".toList) ("1".toList) _ _ _ h1⟩

/-- C10: when the non-blank expression evaluates without a raise to a
value that is not an array (nor a list), no function-invalid error is
reported; the value is broadcast across the full y-sequence and a Sample
Set is handed to the sink — the function-invalid error arises only from a
raise. -/
theorem c10_nonarray_broadcast (c : CanvasState) (fT mT MT : Text) (mn mx : ℚ) (v : PyVal)
    (hB : (stripText fT).isEmpty = false)
    (hI : (validate_and_return_min_max mT MT).interval = some (mn, mx))
    (hE : evalFunc fT (linspaceQ mn mx 1000) = .ok v)
    (harr : ∀ l, v ≠ .arr l) :
    (validate_function fT mT MT).funcError = none ∧
    (plot c fT mT MT).sink =
      some (linspaceQ mn mx 1000, List.replicate (linspaceQ mn mx 1000).length v,
        titleText fT) :=
  plot_broadcast_helper c hB hI hE harr

/-- Witness for C10 at the expression `"abs"`, which evaluates to the
builtin function object `abs`. -/
theorem c10_witness :
    (validate_function ("abs".toList) ("-10".toList) ("10".toList)).funcError = none ∧
    (plot ⟨none⟩ ("abs".toList) ("-10".toList) ("10".toList)).sink =
      some (linspaceQ (-10) 10 1000,
        List.replicate (linspaceQ (-10) 10 1000).length (PyVal.builtin "abs"),
        titleText ("abs".toList)) :=
  c10_nonarray_broadcast ⟨none⟩ _ _ _ (-10) 10 (.builtin "abs") (by decide) (by decide) rfl
    (fun l hl => PyVal.noConfusion hl)

theorem linspaceQ_length (a b : ℚ) (n : ℕ) : (linspaceQ a b n).length = n := by
  simp [linspaceQ]

theorem linspaceQ_getD (a b : ℚ) (n i : ℕ) (h : i < n) :
    (linspaceQ a b n).getD i 0 = a + (b - a) * i / ((n : ℚ) - 1) := by
  rw [linspaceQ, List.getD_eq_getElem?_getD, List.getElem?_map, List.getElem?_range h]
  rfl

theorem map_getD {α β : Type} (f : α → β) {l : List α} {i : ℕ} (h : i < l.length)
    (d : α) (d' : β) : (l.map f).getD i d' = f (l.getD i d) := by
  rw [List.getD_eq_getElem?_getD, List.getElem?_map, List.getD_eq_getElem?_getD,
    List.getElem?_eq_getElem h]
  rfl

theorem evalFunc_xsq2 (xs : List ℚ) :
    evalFunc ("x^2+2".toList) xs = .ok (.arr (xs.map (fun q => q ^ (2:ℤ) + 2))) := by
  have hp : parseExpression (replaceCaret ("x^2+2".toList)) =
      some (.bin .add (.bin .pow (.ident "x") (.num 2)) (.num 2)) := by decide
  have h1 : evalFunc ("x^2+2".toList) xs =
      evalPyExpr xs (.bin .add (.bin .pow (.ident "x") (.num 2)) (.num 2)) := by
    unfold evalFunc
    rw [hp]
  have h2 : evalPyExpr xs (.bin .add (.bin .pow (.ident "x") (.num 2)) (.num 2)) =
      .ok (.arr ((xs.map (fun q => q ^ (2:ℤ))).map (fun q => q + 2))) := by
    have hden : ((2:ℚ).den = 1) = True := by simp
    have hnum : (2:ℚ).num = 2 := rfl
    simp [evalPyExpr, evalBin, binFloat, hden, hnum]
  rw [h1, h2, List.map_map]
  rfl

theorem validate_function_c1 :
    validate_function ("x^2+2".toList) ("-10".toList) ("10".toList) =
      ⟨none, none, none,
        some (linspaceQ (-10) 10 1000,
          .arr ((linspaceQ (-10) 10 1000).map (fun q => q ^ (2:ℤ) + 2)),
          "x^2+2".toList)⟩ := by
  have hI : (validate_and_return_min_max ("-10".toList) ("10".toList)).interval =
      some (-10, 10) := by decide
  rw [validate_function_eval (by decide) hI, evalFunc_xsq2]

theorem plot_c1_sink :
    (plot ⟨none⟩ ("x^2+2".toList) ("-10".toList) ("10".toList)).sink =
      some (linspaceQ (-10) 10 1000,
        (linspaceQ (-10) 10 1000).map (fun q => PyVal.scalar (q ^ (2:ℤ) + 2)),
        titleText ("x^2+2".toList)) := by
  simp only [plot, validate_function_c1]
  rw [List.map_map]
  rfl

/-- C1: for the expression `"x^2+2"` over (-10, 10) the pipeline hands the
sink a Sample Set whose x-sequence is the 1000 evenly spaced points
`-10 + 20*i/999` (so from -10 to 10, both endpoints included), whose
y-sequence satisfies `y[i] = x[i]^2 + 2` for every index, and whose title
is `"f(x) = x^2+2"`. -/
theorem c1_pipeline_xsq2 :
    (plot ⟨none⟩ ("x^2+2".toList) ("-10".toList) ("10".toList)).sink =
      some (linspaceQ (-10) 10 1000,
        (linspaceQ (-10) 10 1000).map (fun q => PyVal.scalar (q ^ (2:ℤ) + 2)),
        "f(x) = x^2+2".toList) ∧
    (linspaceQ (-10) 10 1000).length = 1000 ∧
    (∀ i : ℕ, i < 1000 →
      (linspaceQ (-10) 10 1000).getD i 0 = -10 + 20 * (i : ℚ) / 999) ∧
    (∀ i : ℕ, i < 1000 →
      ((linspaceQ (-10) 10 1000).map (fun q => PyVal.scalar (q ^ (2:ℤ) + 2))).getD i
          (PyVal.scalar 0) =
        PyVal.scalar (((linspaceQ (-10) 10 1000).getD i 0) ^ 2 + 2)) := by
  refine ⟨?_, linspaceQ_length _ _ _, fun i h => ?_, fun i h => ?_⟩
  · rw [plot_c1_sink]
    rw [show titleText ("x^2+2".toList) = "f(x) = x^2+2".toList from by decide]
  · rw [linspaceQ_getD _ _ _ _ h]
    norm_num
  · have hlen : i < (linspaceQ (-10:ℚ) 10 1000).length := by
      rw [linspaceQ_length]; exact h
    rw [map_getD _ hlen 0 (PyVal.scalar 0),
      show (2:ℤ) = ((2:ℕ):ℤ) from rfl, zpow_natCast]

/-- Witness for C1: the sink equation, and the first point, last point and
first y-value obtained from the theorem at concrete indices. -/
theorem c1_witness :
    (plot ⟨none⟩ ("x^2+2".toList) ("-10".toList) ("10".toList)).sink =
      some (linspaceQ (-10) 10 1000,
        (linspaceQ (-10) 10 1000).map (fun q => PyVal.scalar (q ^ (2:ℤ) + 2)),
        "f(x) = x^2+2".toList) ∧
    (linspaceQ (-10:ℚ) 10 1000).getD 0 0 = -10 + 20 * ((0:ℕ) : ℚ) / 999 ∧
    (linspaceQ (-10:ℚ) 10 1000).getD 999 0 = -10 + 20 * ((999:ℕ) : ℚ) / 999 ∧
    ((linspaceQ (-10:ℚ) 10 1000).map (fun q => PyVal.scalar (q ^ (2:ℤ) + 2))).getD 0
        (PyVal.scalar 0) =
      PyVal.scalar (((linspaceQ (-10:ℚ) 10 1000).getD 0 0) ^ 2 + 2) :=
  ⟨c1_pipeline_xsq2.1,
   c1_pipeline_xsq2.2.2.1 0 (by norm_num),
   c1_pipeline_xsq2.2.2.1 999 (by norm_num),
   c1_pipeline_xsq2.2.2.2 0 (by norm_num)⟩

theorem replaceCaret_length (cs : Text) :
    (replaceCaret cs).length = cs.length + cs.count '^' := by
  induction cs with
  | nil => rfl
  | cons c cs ih =>
      by_cases h : c = '^'
      · subst h
        simp [replaceCaret, ih, List.count_cons]
        omega
      · have hb : ('^' == c) = false := by
          simp [beq_iff_eq]
          exact fun he => h he.symm
        simp [replaceCaret, h, ih, List.count_cons, hb]
        omega

theorem replaceCaret_ne {cs : Text} (h : '^' ∈ cs) : cs ≠ replaceCaret cs := by
  intro he
  have hlen := replaceCaret_length cs
  rw [← he] at hlen
  have hpos : 0 < cs.count '^' := List.count_pos_iff.mpr h
  omega

/-- C7: whenever the pipeline hands the sink a Sample Set for an
expression text containing `^`, the title echoes the original text (which
differs from the normalized internal form, so the title is never built
from the normalized form). -/
theorem c7_title_roundtrip (c : CanvasState) (fT mT MT : Text) (x : List ℚ)
    (y : List PyVal) (t : Text) (hc : '^' ∈ fT)
    (hs : (plot c fT mT MT).sink = some (x, y, t)) :
    t = titleText fT ∧ fT ≠ replaceCaret fT ∧ t ≠ titleText (replaceCaret fT) := by
  obtain ⟨v, hres, ht, _⟩ := plot_sink_spec hs
  have hne : fT ≠ replaceCaret fT := replaceCaret_ne hc
  refine ⟨ht, hne, ?_⟩
  rw [ht]
  unfold titleText
  intro he
  exact hne (List.append_cancel_left he)

/-- Witness for C7 at the expression `"x^2+2"` and its Sample Set. -/
theorem c7_witness :
    titleText ("x^2+2".toList) = titleText ("x^2+2".toList) ∧
    ("x^2+2".toList : Text) ≠ replaceCaret ("x^2+2".toList) ∧
    titleText ("x^2+2".toList) ≠ titleText (replaceCaret ("x^2+2".toList)) :=
  c7_title_roundtrip ⟨none⟩ ("x^2+2".toList) ("-10".toList) ("10".toList) _ _ _
    (by decide) plot_c1_sink

/-- C9: the rendering sink's reset/clear operation is idempotent, and
calling it on an already-empty canvas is well-defined and produces the
same configured empty state. -/
theorem c9_default_config_idempotent :
    (∀ c : CanvasState, default_config (default_config c) = default_config c) ∧
    default_config ⟨none⟩ = ⟨some defaultAxes⟩ :=
  ⟨fun _ => rfl, rfl⟩

end FunctionPlotter
